import Mathlib

/-!
Verification of the racing-line optimal-laptime program.

This file gives a shallow embedding, in Lean, of the parts of the program
relevant to the specification claims:

* the post-processing of a solved trajectory in
  `Optimal_laptime::compute_direct` / `compute_derivative`
  (`src/core/applications/optimal_laptime.hpp`): elapsed-time recovery by
  trapezoidal quadrature and the laptime wrap-around contribution;
* the `(s_start, s_finish, n)` constructor of `Optimal_laptime`;
* the assembly of the NLP constraint vector (`FG_direct::operator()`,
  `FG_derivative::operator()`) and of the variable / constraint bound
  vectors (`compute_direct`, `compute_derivative`);
* the handling of the interior-point solver return status;
* the process-wide registry of named artifacts and its operations
  (`src/main/c/fastestlapc.cpp`): `check_variable_exists_in_tables`,
  `copy_variable`, `move_variable`, `delete_variable`, the vehicle-name
  dispatch of `optimal_laptime`, `gg_diagram` and `vehicle_set_parameter`,
  and the output-saving steps of `compute_optimal_laptime` and
  `circuit_preprocessor`;
* the `steady_state_speed` option parsing of
  `Optimal_laptime_configuration`.

Real numbers (`double`) are modelled by `ℚ`; machine maps
(`std::unordered_map<std::string, ·>`) by association lists keyed by
`String`; C++ exceptions by `Except String`; undefined behavior (reading
`back()` of an empty vector) by `Option.none`.
-/

/-! ## Association-list tables

Model of `std::unordered_map<std::string, V>`: `tlookup` is `find`/`at`,
`tcontains` is `count(name) != 0`, `tinsert` is `insert({name, v})` (which
does not overwrite an existing key), `terase` is `erase(name)`. -/

def tlookup {α : Type} (t : List (String × α)) (name : String) : Option α :=
  match t with
  | [] => none
  | (k, v) :: rest => if k = name then some v else tlookup rest name

def tcontains {α : Type} (t : List (String × α)) (name : String) : Bool :=
  (tlookup t name).isSome

def tinsert {α : Type} (t : List (String × α)) (name : String) (v : α) :
    List (String × α) :=
  if tcontains t name then t else (name, v) :: t

def terase {α : Type} (t : List (String × α)) (name : String) :
    List (String × α) :=
  match t with
  | [] => []
  | (k, v) :: rest => if k = name then terase rest name else (k, v) :: terase rest name

/-! ## Post-processing of a solved trajectory (C1, C5)

After the interior-point solve, both `compute_direct` and
`compute_derivative` recompute the elapsed-time states: the model
derivative component `dtimeds` is evaluated at node `0` with arclength
literal `0.0`, and at node `i ≥ 1` with arclength `s[i]`; then
`q[i][ITIME] = q[i-1][ITIME] + 0.5*(s[i]-s[i-1])*(dtimeds_i + dtimeds_{i-1})`.
The model evaluation is abstracted as `f : ℕ → ℚ → ℚ`, where `f i σ` is the
`ITIME` component of the model derivative at the solved state
`(q_i, qa_i, u_i)` of node `i` when evaluated at arclength `σ`. -/

def dtimeds_code (f : ℕ → ℚ → ℚ) (s : ℕ → ℚ) : ℕ → ℚ
  | 0 => f 0 0
  | i + 1 => f (i + 1) (s (i + 1))

/-- The `dtimeds` value the specification text refers to: the model
derivative evaluated at the solved state of node `i`, hence at arclength
`s i`. -/
def dtimeds_at_node (f : ℕ → ℚ → ℚ) (s : ℕ → ℚ) (i : ℕ) : ℚ :=
  f i (s i)

/-- Exported elapsed-time state `q[i][ITIME]`, as recomputed by the loops at
the end of `compute_direct` and `compute_derivative`; `t0` is the exported
`q[0][ITIME]`. -/
def q_time_exported (f : ℕ → ℚ → ℚ) (s : ℕ → ℚ) (t0 : ℚ) : ℕ → ℚ
  | 0 => t0
  | i + 1 => q_time_exported f s t0 i
      + (1/2) * (s (i + 1) - s i) * (dtimeds_code f s (i + 1) + dtimeds_code f s i)

/-- Laptime reported by `compute_direct` (closed case adds the wrap-around
term exactly as in the source: note the product
`dtimeds_prev * dtimeds_first`). -/
def laptime_direct (q_back_time L s_back dtimeds_last dtimeds_first : ℚ)
    (is_closed : Bool) : ℚ :=
  if is_closed then q_back_time + (1/2) * (L - s_back) * (dtimeds_last * dtimeds_first)
  else q_back_time

/-- Laptime reported by `compute_derivative` (closed case adds the
wrap-around term with the sum `dtimeds_prev + dtimeds_first`). -/
def laptime_derivative (q_back_time L s_back dtimeds_last dtimeds_first : ℚ)
    (is_closed : Bool) : ℚ :=
  if is_closed then q_back_time + (1/2) * (L - s_back) * (dtimeds_last + dtimeds_first)
  else q_back_time

/-! ## The `(s_start, s_finish, n)` constructor of `Optimal_laptime` (C2)

The constructor checks `s_start < -1.0e-12` and then evaluates
`s.back() > L` where `s` is the member arclength vector, which at that
point is still the default-constructed empty vector: `back()` on an empty
`std::vector` is undefined behavior, modelled by `Option.none`.
Only afterwards would it assign `s = linspace(s_start, s_finish, n+1)`. -/

/-- Modelled from the spec: the `linspace` helper of the external lion
library (absent from the sources) builds the `n`-point uniform mesh from
`a` to `b`. -/
def linspace (a b : ℚ) (n : ℕ) : List ℚ :=
  (List.range n).map (fun i => a + (b - a) * i / ((n : ℚ) - 1))

/-- The constructor body, with the member vector `s` at entry passed as
`member_s` (at a real construction it is the empty list). `none` models the
undefined behavior of `back()` on an empty vector. -/
def optimal_laptime_ctor_start_finish (member_s : List ℚ) (L s_start s_finish : ℚ)
    (n : ℕ) : Option (Except String (List ℚ)) :=
  if s_start < -(1/1000000000000) then some (Except.error "s_start must be >= 0")
  else
    match member_s.getLast? with
    | none => none
    | some s_back =>
        if s_back > L then some (Except.error "s_finish must be <= L")
        else some (Except.ok (linspace s_start s_finish (n + 1)))

/-- The constructor as the specification describes it: a well-defined check
of the inputs, validating `s_finish ≤ L` instead of reading the
not-yet-assigned member vector. -/
def ctor_start_finish_validated (L s_start s_finish : ℚ) (n : ℕ) :
    Except String (List ℚ) :=
  if s_start < -(1/1000000000000) then Except.error "s_start must be >= 0"
  else if s_finish > L then Except.error "s_finish must be <= L"
  else Except.ok (linspace s_start s_finish (n + 1))

/-! ## `steady_state_speed` option parsing (C3)

`Optimal_laptime_configuration::Optimal_laptime_configuration` reads, when
the options document has an `options/steady_state_speed` element, the value
of `options/initial_speed`; the default is `50` (km/h, multiplied by `KMH`
at use). A document is modelled as an association list from element paths
to numeric values. -/

def has_element (doc : List (String × ℚ)) (path : String) : Bool :=
  (tlookup doc path).isSome

def get_element (doc : List (String × ℚ)) (path : String) : Except String ℚ :=
  match tlookup doc path with
  | some v => Except.ok v
  | none => Except.error "element does not exist"

/-- The `steady_state_speed` assignment exactly as in the source:
`if (has_element "options/steady_state_speed") steady_state_speed =
get_element "options/initial_speed"`, default 50. -/
def parse_steady_state_speed (doc : List (String × ℚ)) : Except String ℚ :=
  if has_element doc "options/steady_state_speed" then
    get_element doc "options/initial_speed"
  else Except.ok 50

/-- The behavior the claim states: the speed equals the value of the
`options/steady_state_speed` element itself, default 50. -/
def steady_state_speed_from_spec (doc : List (String × ℚ)) : ℚ :=
  match tlookup doc "options/steady_state_speed" with
  | some v => v
  | none => 50

/-! ## Solver return status handling (C8)

Model of `CppAD::ipopt::solve_result<Dvector>::status_type` and of the
check performed right after `CppAD::ipopt::solve` returns in both
`compute_direct` and `compute_derivative`:
`if (result.status != success) throw std::runtime_error(...)`. -/

inductive Ipopt_solve_status where
  | not_defined
  | success
  | maxiter_exceeded
  | stop_at_tiny_step
  | stop_at_acceptable_point
  | local_infeasibility
  | user_requested_stop
  | feasible_point_found
  | diverging_iterates
  | restoration_failure
  | error_in_step_computation
  | invalid_number_detected
  | too_few_degrees_of_freedom
  | internal_error
  | unknown
deriving DecidableEq, Repr

/-- Outcome of `compute_direct` after the solver returns: the trajectory
export (abstracted as `solution`) happens only when the status check
passes. -/
def compute_direct_outcome {α : Type} (status : Ipopt_solve_status) (solution : α) :
    Except String α :=
  if status ≠ Ipopt_solve_status.success then Except.error "Optimization did not succeed"
  else Except.ok solution

/-- Outcome of `compute_derivative` after the solver returns (the source
repeats the identical check). -/
def compute_derivative_outcome {α : Type} (status : Ipopt_solve_status) (solution : α) :
    Except String α :=
  if status ≠ Ipopt_solve_status.success then Except.error "Optimization did not succeed"
  else Except.ok solution

/-! ## The process-wide registry of named artifacts (C4, C9, C10)

`fastestlapc.cpp` keeps five process-wide tables: `table_kart_6dof`,
`table_f1_3dof`, `table_track`, `table_scalar`, `table_vector`.  The value
types are abstracted as type parameters. -/

structure Registry (α β γ δ ε : Type) where
  kart_6dof : List (String × α)
  f1_3dof : List (String × β)
  track : List (String × γ)
  scalar : List (String × δ)
  vector : List (String × ε)

/-- `check_variable_exists_in_tables`: raises when the name is present in
any table, in the source's order kart, f1, track, scalar, vector. -/
def check_variable_exists_in_tables {α β γ δ ε : Type} (r : Registry α β γ δ ε)
    (name : String) : Except String Unit :=
  if tcontains r.kart_6dof name then Except.error "Vehicle of type kart-6dof already exists"
  else if tcontains r.f1_3dof name then Except.error "Vehicle of type f1-3dof already exists"
  else if tcontains r.track name then Except.error "Track already exists"
  else if tcontains r.scalar name then Except.error "Scalar already exists"
  else if tcontains r.vector name then Except.error "Vector already exists"
  else Except.ok ()

/-- `copy_variable`: checks the new name is fresh, then copies the entry
found for the old name, searching the tables in the source's order kart,
f1, track, vector, scalar. -/
def copy_variable {α β γ δ ε : Type} (r : Registry α β γ δ ε)
    (old_name new_name : String) : Except String (Registry α β γ δ ε) :=
  match check_variable_exists_in_tables r new_name with
  | Except.error e => Except.error e
  | Except.ok _ =>
    match tlookup r.kart_6dof old_name with
    | some v => Except.ok { r with kart_6dof := tinsert r.kart_6dof new_name v }
    | none =>
    match tlookup r.f1_3dof old_name with
    | some v => Except.ok { r with f1_3dof := tinsert r.f1_3dof new_name v }
    | none =>
    match tlookup r.track old_name with
    | some v => Except.ok { r with track := tinsert r.track new_name v }
    | none =>
    match tlookup r.vector old_name with
    | some v => Except.ok { r with vector := tinsert r.vector new_name v }
    | none =>
    match tlookup r.scalar old_name with
    | some v => Except.ok { r with scalar := tinsert r.scalar new_name v }
    | none => Except.error "copy_variable variable does not exist"

/-- `move_variable`: like `copy_variable` but erases the old entry after
inserting the new one. -/
def move_variable {α β γ δ ε : Type} (r : Registry α β γ δ ε)
    (old_name new_name : String) : Except String (Registry α β γ δ ε) :=
  match check_variable_exists_in_tables r new_name with
  | Except.error e => Except.error e
  | Except.ok _ =>
    match tlookup r.kart_6dof old_name with
    | some v => Except.ok { r with kart_6dof := terase (tinsert r.kart_6dof new_name v) old_name }
    | none =>
    match tlookup r.f1_3dof old_name with
    | some v => Except.ok { r with f1_3dof := terase (tinsert r.f1_3dof new_name v) old_name }
    | none =>
    match tlookup r.track old_name with
    | some v => Except.ok { r with track := terase (tinsert r.track new_name v) old_name }
    | none =>
    match tlookup r.vector old_name with
    | some v => Except.ok { r with vector := terase (tinsert r.vector new_name v) old_name }
    | none =>
    match tlookup r.scalar old_name with
    | some v => Except.ok { r with scalar := terase (tinsert r.scalar new_name v) old_name }
    | none => Except.error "copy_variable variable does not exist"

/-- Number of tables holding `name`, exactly the `n_ocurrences` sum
computed by `delete_variable` (kart + f1 + track + vector + scalar). -/
def occurrences {α β γ δ ε : Type} (r : Registry α β γ δ ε) (name : String) : ℕ :=
  (if tcontains r.kart_6dof name then 1 else 0)
  + (if tcontains r.f1_3dof name then 1 else 0)
  + (if tcontains r.track name then 1 else 0)
  + (if tcontains r.vector name then 1 else 0)
  + (if tcontains r.scalar name then 1 else 0)

/-- `delete_variable`: rejects multiply-defined names, then erases the
entry from the first table holding it (kart, f1, track, vector, scalar). -/
def delete_variable {α β γ δ ε : Type} (r : Registry α β γ δ ε) (name : String) :
    Except String (Registry α β γ δ ε) :=
  if occurrences r name > 1 then
    Except.error "delete_variable variable has been multiply defined"
  else if tcontains r.kart_6dof name then
    Except.ok { r with kart_6dof := terase r.kart_6dof name }
  else if tcontains r.f1_3dof name then
    Except.ok { r with f1_3dof := terase r.f1_3dof name }
  else if tcontains r.track name then
    Except.ok { r with track := terase r.track name }
  else if tcontains r.vector name then
    Except.ok { r with vector := terase r.vector name }
  else if tcontains r.scalar name then
    Except.ok { r with scalar := terase r.scalar name }
  else Except.error "delete_variable variable has not been defined"

/-- The `copy_variable(x,y); move_variable(y,z); delete_variable(z)`
sequence of claim C9. -/
def copy_move_delete {α β γ δ ε : Type} (r : Registry α β γ δ ε) (x y z : String) :
    Except String (Registry α β γ δ ε) :=
  match copy_variable r x y with
  | Except.error e => Except.error e
  | Except.ok r1 =>
    match move_variable r1 y z with
    | Except.error e => Except.error e
    | Except.ok r2 => delete_variable r2 z

def is_ok {α : Type} (e : Except String α) : Bool :=
  match e with
  | Except.ok _ => true
  | Except.error _ => false

/-- Registry held by an `Except`-valued API call, with a fallback for the
error case. -/
def reg_or {α β γ δ ε : Type} (dflt : Registry α β γ δ ε)
    (e : Except String (Registry α β γ δ ε)) : Registry α β γ δ ε :=
  match e with
  | Except.ok rr => rr
  | Except.error _ => dflt

/-! ### Vehicle-name dispatch of the public operations (C4)

`optimal_laptime` and `gg_diagram` run the kart branch, else the f1
branch, else fall off the end of the `if`/`else if` chain and return
normally; `vehicle_set_parameter` only checks the f1 table.  The actual
work of a taken branch is abstracted as a registry transformer. -/

inductive Dispatch where
  | ran_kart
  | ran_f1
  | silent_return
deriving DecidableEq, Repr

def optimal_laptime_api {α β γ δ ε : Type}
    (on_kart on_f1 : Registry α β γ δ ε → Registry α β γ δ ε)
    (r : Registry α β γ δ ε) (vehicle_name : String) :
    Dispatch × Registry α β γ δ ε :=
  if tcontains r.kart_6dof vehicle_name then (Dispatch.ran_kart, on_kart r)
  else if tcontains r.f1_3dof vehicle_name then (Dispatch.ran_f1, on_f1 r)
  else (Dispatch.silent_return, r)

def gg_diagram_api {α β γ δ ε : Type}
    (on_kart on_f1 : Registry α β γ δ ε → Registry α β γ δ ε)
    (r : Registry α β γ δ ε) (vehicle_name : String) :
    Dispatch × Registry α β γ δ ε :=
  if tcontains r.kart_6dof vehicle_name then (Dispatch.ran_kart, on_kart r)
  else if tcontains r.f1_3dof vehicle_name then (Dispatch.ran_f1, on_f1 r)
  else (Dispatch.silent_return, r)

def vehicle_set_parameter_api {α β γ δ ε : Type}
    (on_f1 : Registry α β γ δ ε → Registry α β γ δ ε)
    (r : Registry α β γ δ ε) (vehicle_name : String) :
    Dispatch × Registry α β γ δ ε :=
  if tcontains r.f1_3dof vehicle_name then (Dispatch.ran_f1, on_f1 r)
  else (Dispatch.silent_return, r)

/-! ### Output-saving steps (C10)

`compute_optimal_laptime` step (6.2) checks the scalar and the vector
tables only, then inserts the prefixed output name into the scalar table
(for `laptime` and integral quantities) or the vector table; the
`circuit_preprocessor` step (3.1) checks the track table only. -/

def save_scalar_output {α β γ δ ε : Type} (r : Registry α β γ δ ε)
    (full_name : String) (value : δ) : Except String (Registry α β γ δ ε) :=
  if tcontains r.scalar full_name then
    Except.error "Variable already exists in the scalar table"
  else if tcontains r.vector full_name then
    Except.error "Variable already exists in the vector table"
  else Except.ok { r with scalar := tinsert r.scalar full_name value }

def save_vector_output {α β γ δ ε : Type} (r : Registry α β γ δ ε)
    (full_name : String) (value : ε) : Except String (Registry α β γ δ ε) :=
  if tcontains r.scalar full_name then
    Except.error "Variable already exists in the scalar table"
  else if tcontains r.vector full_name then
    Except.error "Variable already exists in the vector table"
  else Except.ok { r with vector := tinsert r.vector full_name value }

def circuit_preprocessor_insert_track {α β γ δ ε : Type} (r : Registry α β γ δ ε)
    (name : String) (trk : γ) : Except String (Registry α β γ δ ε) :=
  if tcontains r.track name then
    Except.error "Track already exists in the track table"
  else Except.ok { r with track := tinsert r.track name trk }

/-! ## NLP assembly (C6, C7)

Data of one transcription: the model dimensions, the mesh, the values the
car evaluation produces at each loaded node, the model-supplied bounds and
the track limits.  `dqdt i j` is component `j` of the first output of
`_car(_q[i], _qa[i], _u[i], _s[i])` (the state derivative), `dqa i j` the
algebraic residual, `c_extra i j` the extra (tire) constraint values after
that evaluation — the car itself is external to the assembly code and is
abstracted by these node-indexed values.  In derivative mode the six tire
getters written out in `FG_derivative::operator()` are the model's
`N_OL_EXTRA_CONSTRAINTS` extra constraint values. -/

structure OLP where
  NSTATE : ℕ
  ITIME : ℕ
  NALGEBRAIC : ℕ
  NCONTROL : ℕ
  NEXTRA : ℕ
  n_points : ℕ
  track_length : ℚ
  s : ℕ → ℚ
  q : ℕ → ℕ → ℚ
  qa : ℕ → ℕ → ℚ
  u : ℕ → ℕ → ℚ
  dudt : ℕ → ℕ → ℚ
  dqdt : ℕ → ℕ → ℚ
  dqa : ℕ → ℕ → ℚ
  c_extra : ℕ → ℕ → ℚ
  q_lb : ℕ → ℚ
  q_ub : ℕ → ℚ
  qa_lb : ℕ → ℚ
  qa_ub : ℕ → ℚ
  u_lb : ℕ → ℚ
  u_ub : ℕ → ℚ
  dudt_lb : ℕ → ℚ
  dudt_ub : ℕ → ℚ
  c_extra_lb : ℕ → ℚ
  c_extra_ub : ℕ → ℚ
  left_track_limit : ℚ → ℚ
  right_track_limit : ℚ → ℚ

def rangeMap (n : ℕ) (f : ℕ → ℚ) : List ℚ :=
  (List.range n).map f

/-- `concat_blocks f start len` is the list written by a loop
`for i = start .. start+len-1 append (f i)`. -/
def concat_blocks (f : ℕ → List ℚ) : ℕ → ℕ → List ℚ
  | _, 0 => []
  | start, len + 1 => f start ++ concat_blocks f (start + 1) len

/-- The `offset` of the assembly loops: 0 for closed tracks, 1 for open
ones (node 0 fixed to the initial condition). -/
def ol_offset (is_closed : Bool) : ℕ :=
  if is_closed then 0 else 1

/-- Trapezoidal collocation defect of element `i`, state `j`:
`_q[i][j] - _q[i-1][j] - 0.5*(_s[i]-_s[i-1])*(_dqdt[i-1][j] + _dqdt[i][j])`. -/
def state_defect (P : OLP) (i j : ℕ) : ℚ :=
  P.q i j - P.q (i - 1) j
    - (1/2) * (P.s i - P.s (i - 1)) * (P.dqdt (i - 1) j + P.dqdt i j)

/-- Control defect of element `i`, control `j` (derivative mode):
`_u[i][j] - _u[i-1][j] - 0.5*(_s[i]-_s[i-1])*(_dudt[i-1][j]*_dqdt[i-1][ITIME]
+ _dudt[i][j]*_dqdt[i][ITIME])`. -/
def control_defect (P : OLP) (i j : ℕ) : ℚ :=
  P.u i j - P.u (i - 1) j
    - (1/2) * (P.s i - P.s (i - 1))
      * (P.dudt (i - 1) j * P.dqdt (i - 1) P.ITIME + P.dudt i j * P.dqdt i P.ITIME)

/-- The state defects of element `i` in constraint order: states before
`ITIME`, then states after `ITIME`. -/
def state_defect_block (P : OLP) (i : ℕ) : List ℚ :=
  rangeMap P.ITIME (fun j => state_defect P i j)
  ++ rangeMap (P.NSTATE - (P.ITIME + 1)) (fun j => state_defect P i (P.ITIME + 1 + j))

/-- Constraint entries `fg[k]` contributed by interior element `i` in
`FG_direct::operator()`: state defects, algebraic residuals, extra (tire)
constraints. -/
def element_constraints_direct (P : OLP) (i : ℕ) : List ℚ :=
  state_defect_block P i ++ rangeMap P.NALGEBRAIC (fun j => P.dqa i j)
  ++ rangeMap P.NEXTRA (fun j => P.c_extra i j)

/-- Constraint entries contributed by interior element `i` in
`FG_derivative::operator()`: the same prefix, then the control defects. -/
def element_constraints_derivative (P : OLP) (i : ℕ) : List ℚ :=
  element_constraints_direct P i
  ++ rangeMap P.NCONTROL (fun j => control_defect P i j)

/-- Wrap-around state defect of the implicit last-to-first element of a
closed track. -/
def periodic_state_defect (P : OLP) (j : ℕ) : ℚ :=
  P.q 0 j - P.q (P.n_points - 1) j
    - (1/2) * (P.track_length - P.s (P.n_points - 1))
      * (P.dqdt (P.n_points - 1) j + P.dqdt 0 j)

/-- Wrap-around control defect (derivative mode). -/
def periodic_control_defect (P : OLP) (j : ℕ) : ℚ :=
  P.u 0 j - P.u (P.n_points - 1) j
    - (1/2) * (P.track_length - P.s (P.n_points - 1))
      * (P.dudt (P.n_points - 1) j * P.dqdt (P.n_points - 1) P.ITIME
         + P.dudt 0 j * P.dqdt 0 P.ITIME)

/-- Constraints of the periodic element appended for closed tracks in
direct mode. -/
def periodic_block_direct (P : OLP) : List ℚ :=
  (rangeMap P.ITIME (fun j => periodic_state_defect P j)
   ++ rangeMap (P.NSTATE - (P.ITIME + 1))
        (fun j => periodic_state_defect P (P.ITIME + 1 + j)))
  ++ rangeMap P.NALGEBRAIC (fun j => P.dqa 0 j)
  ++ rangeMap P.NEXTRA (fun j => P.c_extra 0 j)

/-- Constraints of the periodic element appended for closed tracks in
derivative mode. -/
def periodic_block_derivative (P : OLP) : List ℚ :=
  periodic_block_direct P ++ rangeMap P.NCONTROL (fun j => periodic_control_defect P j)

/-- The assembled constraint vector of `FG_direct::operator()` with the
objective entry `fg[0]` dropped, so that index `k` here is `fg[k+1]` and
lines up with `c_lb[k]` / `c_ub[k]`. -/
def fg_constraints_direct (P : OLP) (is_closed : Bool) : List ℚ :=
  concat_blocks (fun i => element_constraints_direct P i) 1 (P.n_points - 1)
  ++ (if is_closed then periodic_block_direct P else [])

/-- The assembled constraint vector of `FG_derivative::operator()`, with
`fg[0]` dropped. -/
def fg_constraints_derivative (P : OLP) (is_closed : Bool) : List ℚ :=
  concat_blocks (fun i => element_constraints_derivative P i) 1 (P.n_points - 1)
  ++ (if is_closed then periodic_block_derivative P else [])

/-- Per-node constraint-bound entries written by the `compute_direct` fill
loop (`b_extra` is `c_extra_lb` or `c_extra_ub`): zeros for the state slots
before `IN`, the `IN` slot, the state slots after `IN` and the algebraic
slots, then the extra-constraint bounds. -/
def node_c_bounds_direct (P : OLP) (b_extra : ℕ → ℚ) : List ℚ :=
  rangeMap P.ITIME (fun _ => 0) ++ [0]
  ++ rangeMap (P.NSTATE - (P.ITIME + 2)) (fun _ => 0)
  ++ rangeMap P.NALGEBRAIC (fun _ => 0)
  ++ rangeMap P.NEXTRA b_extra

/-- Per-node constraint-bound entries written by the `compute_derivative`
fill loop: the same prefix, then zeros for the control-defect slots. -/
def node_c_bounds_derivative (P : OLP) (b_extra : ℕ → ℚ) : List ℚ :=
  node_c_bounds_direct P b_extra ++ rangeMap P.NCONTROL (fun _ => 0)

def c_lb_direct (P : OLP) (is_closed : Bool) : List ℚ :=
  concat_blocks (fun _ => node_c_bounds_direct P P.c_extra_lb)
    (ol_offset is_closed) (P.n_points - ol_offset is_closed)

def c_ub_direct (P : OLP) (is_closed : Bool) : List ℚ :=
  concat_blocks (fun _ => node_c_bounds_direct P P.c_extra_ub)
    (ol_offset is_closed) (P.n_points - ol_offset is_closed)

def c_lb_derivative (P : OLP) (is_closed : Bool) : List ℚ :=
  concat_blocks (fun _ => node_c_bounds_derivative P P.c_extra_lb)
    (ol_offset is_closed) (P.n_points - ol_offset is_closed)

def c_ub_derivative (P : OLP) (is_closed : Bool) : List ℚ :=
  concat_blocks (fun _ => node_c_bounds_derivative P P.c_extra_ub)
    (ol_offset is_closed) (P.n_points - ol_offset is_closed)

/-- Per-node decision-variable bounds written by the `compute_direct` fill
loop: model state bounds `qb` for the states before `ITIME`, the special
`IN`-slot bound `nb` (the track limit at `s i`), model state bounds for the
states after `IN`, algebraic bounds `qab`, control bounds `cb`. -/
def node_x_bounds_direct (P : OLP) (nb : ℚ) (qb qab cb : ℕ → ℚ) : List ℚ :=
  rangeMap P.ITIME qb ++ [nb]
  ++ rangeMap (P.NSTATE - (P.ITIME + 2)) (fun j => qb (P.ITIME + 2 + j))
  ++ rangeMap P.NALGEBRAIC qab
  ++ rangeMap P.NCONTROL cb

/-- Per-node decision-variable bounds of `compute_derivative`: the same
prefix, then the control-derivative bounds `db`. -/
def node_x_bounds_derivative (P : OLP) (nb : ℚ) (qb qab cb db : ℕ → ℚ) : List ℚ :=
  node_x_bounds_direct P nb qb qab cb ++ rangeMap P.NCONTROL db

def x_lb_direct (P : OLP) (is_closed : Bool) : List ℚ :=
  concat_blocks
    (fun i => node_x_bounds_direct P (-(P.left_track_limit (P.s i))) P.q_lb P.qa_lb P.u_lb)
    (ol_offset is_closed) (P.n_points - ol_offset is_closed)

def x_ub_direct (P : OLP) (is_closed : Bool) : List ℚ :=
  concat_blocks
    (fun i => node_x_bounds_direct P (P.right_track_limit (P.s i)) P.q_ub P.qa_ub P.u_ub)
    (ol_offset is_closed) (P.n_points - ol_offset is_closed)

def x_lb_derivative (P : OLP) (is_closed : Bool) : List ℚ :=
  concat_blocks
    (fun i => node_x_bounds_derivative P (-(P.left_track_limit (P.s i))) P.q_lb P.qa_lb
      P.u_lb P.dudt_lb)
    (ol_offset is_closed) (P.n_points - ol_offset is_closed)

def x_ub_derivative (P : OLP) (is_closed : Bool) : List ℚ :=
  concat_blocks
    (fun i => node_x_bounds_derivative P (P.right_track_limit (P.s i)) P.q_ub P.qa_ub
      P.u_ub P.dudt_ub)
    (ol_offset is_closed) (P.n_points - ol_offset is_closed)

/-- Position of state `j` inside a per-node (or per-element) slot block:
`ITIME` is skipped, so states after it shift down by one. -/
def state_slot (P : OLP) (j : ℕ) : ℕ :=
  if j < P.ITIME then j else j - 1

/-- Constraint entries per interior element / bound entries per node in
direct mode. -/
def block_size_direct (P : OLP) : ℕ :=
  P.NSTATE - 1 + P.NALGEBRAIC + P.NEXTRA

/-- Constraint entries per interior element / bound entries per node in
derivative mode. -/
def block_size_derivative (P : OLP) : ℕ :=
  P.NSTATE - 1 + P.NALGEBRAIC + P.NEXTRA + P.NCONTROL

/-- Decision variables per node in direct mode. -/
def var_block_direct (P : OLP) : ℕ :=
  P.NSTATE - 1 + P.NALGEBRAIC + P.NCONTROL

/-- Decision variables per node in derivative mode. -/
def var_block_derivative (P : OLP) : ℕ :=
  P.NSTATE - 1 + P.NALGEBRAIC + P.NCONTROL + P.NCONTROL

/-- A small concrete instance for witnesses: 3 states with `ITIME = 0`
(hence `IN = 1`), one algebraic state, one control, one extra constraint,
2 nodes. -/
def olpW : OLP where
  NSTATE := 3
  ITIME := 0
  NALGEBRAIC := 1
  NCONTROL := 1
  NEXTRA := 1
  n_points := 2
  track_length := 10
  s := fun i => 4 * i
  q := fun i j => (i : ℚ) + j
  qa := fun i j => (i : ℚ) * j
  u := fun i _ => i
  dudt := fun _ _ => 1
  dqdt := fun i j => (i : ℚ) - j
  dqa := fun i _ => i
  c_extra := fun i j => (i : ℚ) + 2 * j
  q_lb := fun j => -(j : ℚ) - 1
  q_ub := fun j => (j : ℚ) + 1
  qa_lb := fun _ => -100
  qa_ub := fun _ => 100
  u_lb := fun _ => -2
  u_ub := fun _ => 2
  dudt_lb := fun _ => -20
  dudt_ub := fun _ => 20
  c_extra_lb := fun j => -(11/100) - j
  c_extra_ub := fun j => (11/100) + j
  left_track_limit := fun σ => 3 + σ
  right_track_limit := fun σ => 5 + σ

/-- Concrete registry for the C9 witness: `x0` registered exactly once, in
the scalar table. -/
def regC9 : Registry ℚ ℚ ℚ ℚ ℚ :=
  ⟨[], [], [], [("x0", 7)], []⟩

/-- Concrete registry for the C4 theorems: two vehicles, no entry named
`ghost` anywhere. -/
def regC4 : Registry ℚ ℚ ℚ ℚ ℚ :=
  ⟨[("my_kart", 1)], [("my_f1", 2)], [], [], []⟩

/-- Concrete registry for C10: a kart vehicle already registered under the
name `run/laptime` that `compute_optimal_laptime` will also use for its
scalar output. -/
def regC10 : Registry ℚ ℚ ℚ ℚ ℚ :=
  ⟨[("run/laptime", 1)], [], [], [], []⟩

/-- Registry state after the C10 save step: `run/laptime` present in two
tables at once. -/
def regC10_after : Registry ℚ ℚ ℚ ℚ ℚ :=
  ⟨[("run/laptime", 1)], [], [], [("run/laptime", 81)], []⟩

/-! # Theorems -/

/-! ### Helper lemmas -/

theorem q_time_exported_succ (f : ℕ → ℚ → ℚ) (s : ℕ → ℚ) (t0 : ℚ) (i : ℕ) :
    q_time_exported f s t0 (i + 1) = q_time_exported f s t0 i
      + (1/2) * (s (i + 1) - s i) * (dtimeds_code f s (i + 1) + dtimeds_code f s i) :=
  rfl

theorem dtimeds_code_pos (f : ℕ → ℚ → ℚ) (s : ℕ → ℚ) (i : ℕ) (h : 1 ≤ i) :
    dtimeds_code f s i = dtimeds_at_node f s i := by
  cases i with
  | zero => omega
  | succ i => rfl

/-! ### Claim C1 -/

/-- Claim C1: for closed-track solves the reported laptime is claimed to be
`q_back[ITIME] + 0.5*(L - s_back)*(dtimeds_last + dtimeds_first)` in both
transcription modes.  The derivative mode does compute this, but the direct
mode multiplies the two derivative samples instead of adding them
(`dtimeds_prev * dtimeds_first`), contradicting both the derivative mode
and the objective-function wrap-around term of the same file.  At
`q_back[ITIME] = 0`, `L = 10`, `s_back = 0`, `dtimeds_last = 3`,
`dtimeds_first = 1` the direct code reports `15` where the claimed formula
(and the derivative mode) gives `20`. -/
theorem laptime_direct_wraparound_product_bug :
    laptime_direct 0 10 0 3 1 true = 15 ∧
    laptime_derivative 0 10 0 3 1 true = 20 ∧
    laptime_direct 0 10 0 3 1 true ≠
      0 + (1/2) * (10 - 0) * (3 + 1) := by
  refine ⟨?_, ?_, ?_⟩ <;> norm_num [laptime_direct, laptime_derivative]

/-! ### Claim C2 -/

/-- Claim C2: the `(s_start, s_finish, n)` constructor is claimed to
validate `s_finish ≤ L`.  In the source the check reads `s.back()` where
`s` is the still-empty member vector — undefined behavior that never
inspects `s_finish`.  With `L = 1`, `s_start = 0`, `s_finish = 2`, `n = 10`
the code hits the undefined read (modelled as `none`) instead of raising
the validation error that the corrected constructor produces. -/
theorem ctor_start_finish_reads_unassigned_back :
    optimal_laptime_ctor_start_finish [] 1 0 2 10 = none ∧
    ctor_start_finish_validated 1 0 2 10 = Except.error "s_finish must be <= L" := by
  constructor
  · norm_num [optimal_laptime_ctor_start_finish]
  · norm_num [ctor_start_finish_validated]

/-! ### Claim C3 -/

/-- Claim C3: the steady-state seed speed is claimed to equal the value of
the `options/steady_state_speed` element.  The source reads
`options/initial_speed` under the `steady_state_speed` guard: on a document
with `options/steady_state_speed = 80` and `options/initial_speed = 30` the
code yields `30`, not `80`.  When the element is absent both agree on the
default `50`. -/
theorem steady_state_speed_reads_initial_speed_bug :
    parse_steady_state_speed
        [("options/steady_state_speed", 80), ("options/initial_speed", 30)] =
      Except.ok 30 ∧
    steady_state_speed_from_spec
        [("options/steady_state_speed", 80), ("options/initial_speed", 30)] = 80 ∧
    (30 : ℚ) ≠ 80 ∧
    parse_steady_state_speed [] = Except.ok 50 ∧
    steady_state_speed_from_spec [] = 50 := by
  refine ⟨?_, ?_, by norm_num, ?_, ?_⟩ <;>
    simp [parse_steady_state_speed, steady_state_speed_from_spec, has_element,
      get_element, tlookup]

/-! ### Claim C5 -/

/-- Claim C5 counterexample: the recovery relation with `dtimeds_i` taken as
the model derivative evaluated at node `i`'s data (arclength `s i`
included) fails at `i = 1` for an open solve starting at `s 0 = 5`, because
the export loop evaluates node 0 at the arclength literal `0.0`.  Model
derivative `f i σ = σ + 1`, mesh `s i = 5 + i`, exported
`q[0][ITIME] = 0`: the code exports `q[1][ITIME] = 4` while the claimed
relation demands `13/2`. -/
theorem q_time_exported_node0_arclength_counterexample :
    q_time_exported (fun _ σ => σ + 1) (fun i => 5 + (i : ℚ)) 0 1 ≠
      q_time_exported (fun _ σ => σ + 1) (fun i => 5 + (i : ℚ)) 0 0
        + (1/2) * ((fun i => 5 + (i : ℚ)) 1 - (fun i => 5 + (i : ℚ)) 0)
          * (dtimeds_at_node (fun _ σ => σ + 1) (fun i => 5 + (i : ℚ)) 0
             + dtimeds_at_node (fun _ σ => σ + 1) (fun i => 5 + (i : ℚ)) 1) := by
  norm_num [q_time_exported, dtimeds_code, dtimeds_at_node]

/-- Claim C5, amended: the exported elapsed-time states satisfy the
trapezoidal recovery relation at every node `i ≥ 1` with the code's
convention that the node-0 derivative is evaluated at arclength `0`; with
`dtimeds` evaluated at the nodes' own arclengths (as the claim states it)
the relation holds at every node `i ≥ 2` unconditionally, and also at
`i = 1` whenever `s 0 = 0` — in particular for every closed-track solve. -/
theorem q_time_exported_trapezoidal_recovery (f : ℕ → ℚ → ℚ) (s : ℕ → ℚ)
    (t0 : ℚ) (i : ℕ) (h : 1 ≤ i) :
    q_time_exported f s t0 i = q_time_exported f s t0 (i - 1)
      + (1/2) * (s i - s (i - 1)) * (dtimeds_code f s (i - 1) + dtimeds_code f s i) ∧
    (2 ≤ i → q_time_exported f s t0 i = q_time_exported f s t0 (i - 1)
      + (1/2) * (s i - s (i - 1)) * (dtimeds_at_node f s (i - 1) + dtimeds_at_node f s i)) ∧
    (s 0 = 0 → q_time_exported f s t0 i = q_time_exported f s t0 (i - 1)
      + (1/2) * (s i - s (i - 1)) * (dtimeds_at_node f s (i - 1) + dtimeds_at_node f s i)) := by
  obtain ⟨k, rfl⟩ : ∃ k, i = k + 1 := ⟨i - 1, by omega⟩
  refine ⟨?_, ?_, ?_⟩
  · simpa [Nat.add_sub_cancel] using (q_time_exported_succ f s t0 k).trans (by ring)
  · intro h2
    have hk : 1 ≤ k := by omega
    have := q_time_exported_succ f s t0 k
    rw [dtimeds_code_pos f s k hk, dtimeds_code_pos f s (k + 1) (by omega)] at this
    simpa [Nat.add_sub_cancel] using this.trans (by ring)
  · intro h0
    have := q_time_exported_succ f s t0 k
    rw [dtimeds_code_pos f s (k + 1) (by omega)] at this
    rcases Nat.eq_zero_or_pos k with hk | hk
    · subst hk
      have hc : dtimeds_code f s 0 = dtimeds_at_node f s 0 := by
        simp [dtimeds_code, dtimeds_at_node, h0]
      rw [hc] at this
      simpa [Nat.add_sub_cancel] using this.trans (by ring)
    · rw [dtimeds_code_pos f s k hk] at this
      simpa [Nat.add_sub_cancel] using this.trans (by ring)

/-- Witness for `q_time_exported_trapezoidal_recovery` at `f i σ = σ`,
`s i = i`, `t0 = 0`, `i = 2`; the recovered elapsed time at node 2
evaluates to `2`. -/
theorem q_time_exported_trapezoidal_recovery_witness :
    (1 : ℕ) ≤ 2 ∧
    q_time_exported (fun _ σ => σ) (fun i => (i : ℚ)) 0 2 = 2 := by
  have h := q_time_exported_trapezoidal_recovery (fun _ σ => σ) (fun i => (i : ℚ)) 0 2
    (by norm_num)
  refine ⟨by norm_num, ?_⟩
  rw [h.1]
  norm_num [q_time_exported, dtimeds_code]

/-! ### Claim C8 -/

/-- Claim C8: whenever the interior-point solver returns a status other
than success, both transcription modes raise the optimization-failure
error, so a trajectory is produced only from a successful solver run. -/
theorem solver_status_failure_raises {α : Type} (status : Ipopt_solve_status)
    (solution : α) (h : status ≠ Ipopt_solve_status.success) :
    compute_direct_outcome status solution = Except.error "Optimization did not succeed" ∧
    compute_derivative_outcome status solution = Except.error "Optimization did not succeed" := by
  constructor <;> simp [compute_direct_outcome, compute_derivative_outcome, h]

/-- Witness for `solver_status_failure_raises` at status
`maxiter_exceeded` and solution `0 : ℚ`. -/
theorem solver_status_failure_raises_witness :
    Ipopt_solve_status.maxiter_exceeded ≠ Ipopt_solve_status.success ∧
    (compute_direct_outcome Ipopt_solve_status.maxiter_exceeded (0 : ℚ) =
        Except.error "Optimization did not succeed" ∧
      compute_derivative_outcome Ipopt_solve_status.maxiter_exceeded (0 : ℚ) =
        Except.error "Optimization did not succeed") :=
  ⟨by decide, solver_status_failure_raises Ipopt_solve_status.maxiter_exceeded 0 (by decide)⟩

/-! ### Table lemmas -/

theorem tcontains_eq_false_iff {α : Type} (t : List (String × α)) (n : String) :
    tcontains t n = false ↔ tlookup t n = none := by
  unfold tcontains
  cases h : tlookup t n <;> simp [h]

theorem tcontains_eq_true_iff {α : Type} (t : List (String × α)) (n : String) :
    tcontains t n = true ↔ ∃ v, tlookup t n = some v := by
  unfold tcontains
  cases h : tlookup t n <;> simp [h]

theorem tlookup_tinsert_self {α : Type} (t : List (String × α)) {n : String}
    (h : tcontains t n = false) (v : α) : tlookup (tinsert t n v) n = some v := by
  unfold tinsert
  rw [h]
  simp [tlookup]

theorem tlookup_tinsert_ne {α : Type} (t : List (String × α)) {m n : String}
    (h : m ≠ n) (v : α) : tlookup (tinsert t n v) m = tlookup t m := by
  unfold tinsert
  cases hc : tcontains t n
  · simp only [Bool.false_eq_true, if_false]
    simp [tlookup, Ne.symm h]
  · simp

theorem tcontains_tinsert_self {α : Type} (t : List (String × α)) (n : String) (v : α) :
    tcontains (tinsert t n v) n = true := by
  cases hc : tcontains t n
  · unfold tcontains
    rw [tlookup_tinsert_self t hc v]
    rfl
  · unfold tinsert
    rw [hc]
    simpa using hc

theorem tcontains_tinsert_ne {α : Type} (t : List (String × α)) {m n : String}
    (h : m ≠ n) (v : α) : tcontains (tinsert t n v) m = tcontains t m := by
  unfold tcontains
  rw [tlookup_tinsert_ne t h v]

theorem tlookup_terase_self {α : Type} (t : List (String × α)) (n : String) :
    tlookup (terase t n) n = none := by
  induction t with
  | nil => rfl
  | cons p rest ih =>
    obtain ⟨k, v⟩ := p
    by_cases hk : k = n
    · simp [terase, hk, ih]
    · simp [terase, hk, tlookup, ih]

theorem tlookup_terase_ne {α : Type} (t : List (String × α)) {m n : String}
    (h : m ≠ n) : tlookup (terase t n) m = tlookup t m := by
  induction t with
  | nil => rfl
  | cons p rest ih =>
    obtain ⟨k, v⟩ := p
    by_cases hk : k = n
    · subst hk
      simp [terase, tlookup, Ne.symm h, ih]
    · simp only [terase, hk, if_false]
      by_cases hm : k = m <;> simp [tlookup, hm, ih]

theorem tcontains_terase_self {α : Type} (t : List (String × α)) (n : String) :
    tcontains (terase t n) n = false := by
  unfold tcontains
  rw [tlookup_terase_self]
  rfl

theorem tcontains_terase_ne {α : Type} (t : List (String × α)) {m n : String}
    (h : m ≠ n) : tcontains (terase t n) m = tcontains t m := by
  unfold tcontains
  rw [tlookup_terase_ne t h]

theorem occurrences_eq_zero_iff {α β γ δ ε : Type} (r : Registry α β γ δ ε)
    (n : String) : occurrences r n = 0 ↔
    tcontains r.kart_6dof n = false ∧ tcontains r.f1_3dof n = false ∧
    tcontains r.track n = false ∧ tcontains r.vector n = false ∧
    tcontains r.scalar n = false := by
  unfold occurrences
  cases h1 : tcontains r.kart_6dof n <;> cases h2 : tcontains r.f1_3dof n <;>
    cases h3 : tcontains r.track n <;> cases h4 : tcontains r.vector n <;>
    cases h5 : tcontains r.scalar n <;> simp

theorem occurrences_eq_one_cases {α β γ δ ε : Type} (r : Registry α β γ δ ε)
    (n : String) (h : occurrences r n = 1) :
    (tcontains r.kart_6dof n = true ∧ tcontains r.f1_3dof n = false ∧
      tcontains r.track n = false ∧ tcontains r.vector n = false ∧
      tcontains r.scalar n = false) ∨
    (tcontains r.kart_6dof n = false ∧ tcontains r.f1_3dof n = true ∧
      tcontains r.track n = false ∧ tcontains r.vector n = false ∧
      tcontains r.scalar n = false) ∨
    (tcontains r.kart_6dof n = false ∧ tcontains r.f1_3dof n = false ∧
      tcontains r.track n = true ∧ tcontains r.vector n = false ∧
      tcontains r.scalar n = false) ∨
    (tcontains r.kart_6dof n = false ∧ tcontains r.f1_3dof n = false ∧
      tcontains r.track n = false ∧ tcontains r.vector n = true ∧
      tcontains r.scalar n = false) ∨
    (tcontains r.kart_6dof n = false ∧ tcontains r.f1_3dof n = false ∧
      tcontains r.track n = false ∧ tcontains r.vector n = false ∧
      tcontains r.scalar n = true) := by
  unfold occurrences at h
  cases h1 : tcontains r.kart_6dof n <;> cases h2 : tcontains r.f1_3dof n <;>
    cases h3 : tcontains r.track n <;> cases h4 : tcontains r.vector n <;>
    cases h5 : tcontains r.scalar n <;> simp_all

/-! ### Claim C9 -/

/-- Claim C9: for a name `x` registered in exactly one table and fresh
distinct names `y`, `z`, the sequence `copy_variable(x,y);
move_variable(y,z); delete_variable(z)` succeeds, afterwards neither `y`
nor `z` is registered in any table, and the entry of `x` is unchanged in
every table. -/
theorem copy_move_delete_clears {α β γ δ ε : Type} (r : Registry α β γ δ ε)
    (x y z : String) (hx : occurrences r x = 1) (hy : occurrences r y = 0)
    (hz : occurrences r z = 0) (hyz : y ≠ z) :
    is_ok (copy_move_delete r x y z) = true ∧
    occurrences (reg_or r (copy_move_delete r x y z)) y = 0 ∧
    occurrences (reg_or r (copy_move_delete r x y z)) z = 0 ∧
    tlookup (reg_or r (copy_move_delete r x y z)).kart_6dof x = tlookup r.kart_6dof x ∧
    tlookup (reg_or r (copy_move_delete r x y z)).f1_3dof x = tlookup r.f1_3dof x ∧
    tlookup (reg_or r (copy_move_delete r x y z)).track x = tlookup r.track x ∧
    tlookup (reg_or r (copy_move_delete r x y z)).scalar x = tlookup r.scalar x ∧
    tlookup (reg_or r (copy_move_delete r x y z)).vector x = tlookup r.vector x := by
  have hxy : x ≠ y := by intro e; subst e; omega
  have hxz : x ≠ z := by intro e; subst e; omega
  obtain ⟨hyk, hyf, hyt, hyv, hys⟩ := (occurrences_eq_zero_iff r y).mp hy
  obtain ⟨hzk, hzf, hzt, hzv, hzs⟩ := (occurrences_eq_zero_iff r z).mp hz
  rcases occurrences_eq_one_cases r x hx with hc | hc | hc | hc | hc
  · -- x registered in the kart-6dof table
    obtain ⟨hk, hf, ht, hvv, hs⟩ := hc
    obtain ⟨v, hv⟩ := (tcontains_eq_true_iff _ _).mp hk
    have h1 : copy_variable r x y =
        Except.ok { r with kart_6dof := tinsert r.kart_6dof y v } := by
      simp [copy_variable, check_variable_exists_in_tables, hyk, hyf, hyt, hys, hyv, hv]
    have hz1 : tcontains (tinsert r.kart_6dof y v) z = false := by
      rw [tcontains_tinsert_ne _ (Ne.symm hyz)]
      exact hzk
    have hy1 : tlookup (tinsert r.kart_6dof y v) y = some v :=
      tlookup_tinsert_self _ hyk v
    have h2 : move_variable { r with kart_6dof := tinsert r.kart_6dof y v } y z =
        Except.ok { r with kart_6dof := terase (tinsert (tinsert r.kart_6dof y v) z v) y } := by
      simp [move_variable, check_variable_exists_in_tables, hz1, hzf, hzt, hzs, hzv, hy1]
    have hz2k : tcontains (terase (tinsert (tinsert r.kart_6dof y v) z v) y) z = true := by
      rw [tcontains_terase_ne _ (Ne.symm hyz)]
      exact tcontains_tinsert_self _ z v
    have h3 : delete_variable { r with kart_6dof := terase (tinsert (tinsert r.kart_6dof y v) z v) y } z =
        Except.ok { r with kart_6dof := terase (terase (tinsert (tinsert r.kart_6dof y v) z v) y) z } := by
      simp [delete_variable, occurrences, hz2k, hzf, hzt, hzs, hzv]
    have hcmd : copy_move_delete r x y z = Except.ok { r with kart_6dof := terase (terase (tinsert (tinsert r.kart_6dof y v) z v) y) z } := by
      simp [copy_move_delete, h1, h2, h3]
    rw [hcmd]
    simp only [reg_or]
    have hk3y : tcontains (terase (terase (tinsert (tinsert r.kart_6dof y v) z v) y) z) y
        = false := by
      rw [tcontains_terase_ne _ hyz]
      exact tcontains_terase_self _ y
    have hk3z : tcontains (terase (terase (tinsert (tinsert r.kart_6dof y v) z v) y) z) z
        = false := tcontains_terase_self _ z
    refine ⟨by trivial, ?_, ?_, ?_, by trivial, by trivial, by trivial, by trivial⟩
    · simp [occurrences, hk3y, hyf, hyt, hyv, hys]
    · simp [occurrences, hk3z, hzf, hzt, hzv, hzs]
    · show tlookup (terase (terase (tinsert (tinsert r.kart_6dof y v) z v) y) z) x
        = tlookup r.kart_6dof x
      rw [tlookup_terase_ne _ hxz, tlookup_terase_ne _ hxy,
        tlookup_tinsert_ne _ hxz v, tlookup_tinsert_ne _ hxy v]
  · -- x registered in the f1-3dof table
    obtain ⟨hk, hf, ht, hvv, hs⟩ := hc
    have hxk : tlookup r.kart_6dof x = none := (tcontains_eq_false_iff _ _).mp hk
    obtain ⟨v, hv⟩ := (tcontains_eq_true_iff _ _).mp hf
    have h1 : copy_variable r x y =
        Except.ok { r with f1_3dof := tinsert r.f1_3dof y v } := by
      simp [copy_variable, check_variable_exists_in_tables, hyk, hyf, hyt, hys, hyv,
        hxk, hv]
    have hz1 : tcontains (tinsert r.f1_3dof y v) z = false := by
      rw [tcontains_tinsert_ne _ (Ne.symm hyz)]
      exact hzf
    have hy1 : tlookup (tinsert r.f1_3dof y v) y = some v :=
      tlookup_tinsert_self _ hyf v
    have hyk2 : tlookup r.kart_6dof y = none := (tcontains_eq_false_iff _ _).mp hyk
    have h2 : move_variable { r with f1_3dof := tinsert r.f1_3dof y v } y z =
        Except.ok { r with f1_3dof := terase (tinsert (tinsert r.f1_3dof y v) z v) y } := by
      simp [move_variable, check_variable_exists_in_tables, hz1, hzk, hzt, hzs, hzv,
        hyk2, hy1]
    have hz2f : tcontains (terase (tinsert (tinsert r.f1_3dof y v) z v) y) z = true := by
      rw [tcontains_terase_ne _ (Ne.symm hyz)]
      exact tcontains_tinsert_self _ z v
    have h3 : delete_variable { r with f1_3dof := terase (tinsert (tinsert r.f1_3dof y v) z v) y } z =
        Except.ok { r with f1_3dof := terase (terase (tinsert (tinsert r.f1_3dof y v) z v) y) z } := by
      simp [delete_variable, occurrences, hz2f, hzk, hzt, hzs, hzv]
    have hcmd : copy_move_delete r x y z = Except.ok { r with f1_3dof := terase (terase (tinsert (tinsert r.f1_3dof y v) z v) y) z } := by
      simp [copy_move_delete, h1, h2, h3]
    rw [hcmd]
    simp only [reg_or]
    have hf3y : tcontains (terase (terase (tinsert (tinsert r.f1_3dof y v) z v) y) z) y
        = false := by
      rw [tcontains_terase_ne _ hyz]
      exact tcontains_terase_self _ y
    have hf3z : tcontains (terase (terase (tinsert (tinsert r.f1_3dof y v) z v) y) z) z
        = false := tcontains_terase_self _ z
    refine ⟨by trivial, ?_, ?_, by trivial, ?_, by trivial, by trivial, by trivial⟩
    · simp [occurrences, hf3y, hyk, hyt, hyv, hys]
    · simp [occurrences, hf3z, hzk, hzt, hzv, hzs]
    · show tlookup (terase (terase (tinsert (tinsert r.f1_3dof y v) z v) y) z) x
        = tlookup r.f1_3dof x
      rw [tlookup_terase_ne _ hxz, tlookup_terase_ne _ hxy,
        tlookup_tinsert_ne _ hxz v, tlookup_tinsert_ne _ hxy v]
  · -- x registered in the track table
    obtain ⟨hk, hf, ht, hvv, hs⟩ := hc
    have hxk : tlookup r.kart_6dof x = none := (tcontains_eq_false_iff _ _).mp hk
    have hxf : tlookup r.f1_3dof x = none := (tcontains_eq_false_iff _ _).mp hf
    obtain ⟨v, hv⟩ := (tcontains_eq_true_iff _ _).mp ht
    have h1 : copy_variable r x y =
        Except.ok { r with track := tinsert r.track y v } := by
      simp [copy_variable, check_variable_exists_in_tables, hyk, hyf, hyt, hys, hyv,
        hxk, hxf, hv]
    have hz1 : tcontains (tinsert r.track y v) z = false := by
      rw [tcontains_tinsert_ne _ (Ne.symm hyz)]
      exact hzt
    have hy1 : tlookup (tinsert r.track y v) y = some v :=
      tlookup_tinsert_self _ hyt v
    have hyk2 : tlookup r.kart_6dof y = none := (tcontains_eq_false_iff _ _).mp hyk
    have hyf2 : tlookup r.f1_3dof y = none := (tcontains_eq_false_iff _ _).mp hyf
    have h2 : move_variable { r with track := tinsert r.track y v } y z =
        Except.ok { r with track := terase (tinsert (tinsert r.track y v) z v) y } := by
      simp [move_variable, check_variable_exists_in_tables, hz1, hzk, hzf, hzs, hzv,
        hyk2, hyf2, hy1]
    have hz2t : tcontains (terase (tinsert (tinsert r.track y v) z v) y) z = true := by
      rw [tcontains_terase_ne _ (Ne.symm hyz)]
      exact tcontains_tinsert_self _ z v
    have h3 : delete_variable { r with track := terase (tinsert (tinsert r.track y v) z v) y } z =
        Except.ok { r with track := terase (terase (tinsert (tinsert r.track y v) z v) y) z } := by
      simp [delete_variable, occurrences, hz2t, hzk, hzf, hzs, hzv]
    have hcmd : copy_move_delete r x y z = Except.ok { r with track := terase (terase (tinsert (tinsert r.track y v) z v) y) z } := by
      simp [copy_move_delete, h1, h2, h3]
    rw [hcmd]
    simp only [reg_or]
    have ht3y : tcontains (terase (terase (tinsert (tinsert r.track y v) z v) y) z) y
        = false := by
      rw [tcontains_terase_ne _ hyz]
      exact tcontains_terase_self _ y
    have ht3z : tcontains (terase (terase (tinsert (tinsert r.track y v) z v) y) z) z
        = false := tcontains_terase_self _ z
    refine ⟨by trivial, ?_, ?_, by trivial, by trivial, ?_, by trivial, by trivial⟩
    · simp [occurrences, ht3y, hyk, hyf, hyv, hys]
    · simp [occurrences, ht3z, hzk, hzf, hzv, hzs]
    · show tlookup (terase (terase (tinsert (tinsert r.track y v) z v) y) z) x
        = tlookup r.track x
      rw [tlookup_terase_ne _ hxz, tlookup_terase_ne _ hxy,
        tlookup_tinsert_ne _ hxz v, tlookup_tinsert_ne _ hxy v]
  · -- x registered in the vector table
    obtain ⟨hk, hf, ht, hvv, hs⟩ := hc
    have hxk : tlookup r.kart_6dof x = none := (tcontains_eq_false_iff _ _).mp hk
    have hxf : tlookup r.f1_3dof x = none := (tcontains_eq_false_iff _ _).mp hf
    have hxt : tlookup r.track x = none := (tcontains_eq_false_iff _ _).mp ht
    obtain ⟨v, hv⟩ := (tcontains_eq_true_iff _ _).mp hvv
    have h1 : copy_variable r x y =
        Except.ok { r with vector := tinsert r.vector y v } := by
      simp [copy_variable, check_variable_exists_in_tables, hyk, hyf, hyt, hys, hyv,
        hxk, hxf, hxt, hv]
    have hz1 : tcontains (tinsert r.vector y v) z = false := by
      rw [tcontains_tinsert_ne _ (Ne.symm hyz)]
      exact hzv
    have hy1 : tlookup (tinsert r.vector y v) y = some v :=
      tlookup_tinsert_self _ hyv v
    have hyk2 : tlookup r.kart_6dof y = none := (tcontains_eq_false_iff _ _).mp hyk
    have hyf2 : tlookup r.f1_3dof y = none := (tcontains_eq_false_iff _ _).mp hyf
    have hyt2 : tlookup r.track y = none := (tcontains_eq_false_iff _ _).mp hyt
    have h2 : move_variable { r with vector := tinsert r.vector y v } y z =
        Except.ok { r with vector := terase (tinsert (tinsert r.vector y v) z v) y } := by
      simp [move_variable, check_variable_exists_in_tables, hz1, hzk, hzf, hzt, hzs,
        hyk2, hyf2, hyt2, hy1]
    have hz2v : tcontains (terase (tinsert (tinsert r.vector y v) z v) y) z = true := by
      rw [tcontains_terase_ne _ (Ne.symm hyz)]
      exact tcontains_tinsert_self _ z v
    have h3 : delete_variable { r with vector := terase (tinsert (tinsert r.vector y v) z v) y } z =
        Except.ok { r with vector := terase (terase (tinsert (tinsert r.vector y v) z v) y) z } := by
      simp [delete_variable, occurrences, hz2v, hzk, hzf, hzt, hzs]
    have hcmd : copy_move_delete r x y z = Except.ok { r with vector := terase (terase (tinsert (tinsert r.vector y v) z v) y) z } := by
      simp [copy_move_delete, h1, h2, h3]
    rw [hcmd]
    simp only [reg_or]
    have hv3y : tcontains (terase (terase (tinsert (tinsert r.vector y v) z v) y) z) y
        = false := by
      rw [tcontains_terase_ne _ hyz]
      exact tcontains_terase_self _ y
    have hv3z : tcontains (terase (terase (tinsert (tinsert r.vector y v) z v) y) z) z
        = false := tcontains_terase_self _ z
    refine ⟨by trivial, ?_, ?_, by trivial, by trivial, by trivial, by trivial, ?_⟩
    · simp [occurrences, hv3y, hyk, hyf, hyt, hys]
    · simp [occurrences, hv3z, hzk, hzf, hzt, hzs]
    · show tlookup (terase (terase (tinsert (tinsert r.vector y v) z v) y) z) x
        = tlookup r.vector x
      rw [tlookup_terase_ne _ hxz, tlookup_terase_ne _ hxy,
        tlookup_tinsert_ne _ hxz v, tlookup_tinsert_ne _ hxy v]
  · -- x registered in the scalar table
    obtain ⟨hk, hf, ht, hvv, hs⟩ := hc
    have hxk : tlookup r.kart_6dof x = none := (tcontains_eq_false_iff _ _).mp hk
    have hxf : tlookup r.f1_3dof x = none := (tcontains_eq_false_iff _ _).mp hf
    have hxt : tlookup r.track x = none := (tcontains_eq_false_iff _ _).mp ht
    have hxv : tlookup r.vector x = none := (tcontains_eq_false_iff _ _).mp hvv
    obtain ⟨v, hv⟩ := (tcontains_eq_true_iff _ _).mp hs
    have h1 : copy_variable r x y =
        Except.ok { r with scalar := tinsert r.scalar y v } := by
      simp [copy_variable, check_variable_exists_in_tables, hyk, hyf, hyt, hys, hyv,
        hxk, hxf, hxt, hxv, hv]
    have hz1 : tcontains (tinsert r.scalar y v) z = false := by
      rw [tcontains_tinsert_ne _ (Ne.symm hyz)]
      exact hzs
    have hy1 : tlookup (tinsert r.scalar y v) y = some v :=
      tlookup_tinsert_self _ hys v
    have hyk2 : tlookup r.kart_6dof y = none := (tcontains_eq_false_iff _ _).mp hyk
    have hyf2 : tlookup r.f1_3dof y = none := (tcontains_eq_false_iff _ _).mp hyf
    have hyt2 : tlookup r.track y = none := (tcontains_eq_false_iff _ _).mp hyt
    have hyv2 : tlookup r.vector y = none := (tcontains_eq_false_iff _ _).mp hyv
    have h2 : move_variable { r with scalar := tinsert r.scalar y v } y z =
        Except.ok { r with scalar := terase (tinsert (tinsert r.scalar y v) z v) y } := by
      simp [move_variable, check_variable_exists_in_tables, hz1, hzk, hzf, hzt, hzv,
        hyk2, hyf2, hyt2, hyv2, hy1]
    have hz2s : tcontains (terase (tinsert (tinsert r.scalar y v) z v) y) z = true := by
      rw [tcontains_terase_ne _ (Ne.symm hyz)]
      exact tcontains_tinsert_self _ z v
    have h3 : delete_variable { r with scalar := terase (tinsert (tinsert r.scalar y v) z v) y } z =
        Except.ok { r with scalar := terase (terase (tinsert (tinsert r.scalar y v) z v) y) z } := by
      simp [delete_variable, occurrences, hz2s, hzk, hzf, hzt, hzv]
    have hcmd : copy_move_delete r x y z = Except.ok { r with scalar := terase (terase (tinsert (tinsert r.scalar y v) z v) y) z } := by
      simp [copy_move_delete, h1, h2, h3]
    rw [hcmd]
    simp only [reg_or]
    have hs3y : tcontains (terase (terase (tinsert (tinsert r.scalar y v) z v) y) z) y
        = false := by
      rw [tcontains_terase_ne _ hyz]
      exact tcontains_terase_self _ y
    have hs3z : tcontains (terase (terase (tinsert (tinsert r.scalar y v) z v) y) z) z
        = false := tcontains_terase_self _ z
    refine ⟨by trivial, ?_, ?_, by trivial, by trivial, by trivial, ?_, by trivial⟩
    · simp [occurrences, hs3y, hyk, hyf, hyt, hyv]
    · simp [occurrences, hs3z, hzk, hzf, hzt, hzv]
    · show tlookup (terase (terase (tinsert (tinsert r.scalar y v) z v) y) z) x
        = tlookup r.scalar x
      rw [tlookup_terase_ne _ hxz, tlookup_terase_ne _ hxy,
        tlookup_tinsert_ne _ hxz v, tlookup_tinsert_ne _ hxy v]

/-- Witness for `copy_move_delete_clears` on the concrete registry `regC9`
(`x0` held once, in the scalar table) with fresh names `y0`, `z0`. -/
theorem copy_move_delete_clears_witness :
    occurrences regC9 "x0" = 1 ∧ occurrences regC9 "y0" = 0 ∧
    occurrences regC9 "z0" = 0 ∧ "y0" ≠ "z0" ∧
    (is_ok (copy_move_delete regC9 "x0" "y0" "z0") = true ∧
      occurrences (reg_or regC9 (copy_move_delete regC9 "x0" "y0" "z0")) "y0" = 0 ∧
      occurrences (reg_or regC9 (copy_move_delete regC9 "x0" "y0" "z0")) "z0" = 0 ∧
      tlookup (reg_or regC9 (copy_move_delete regC9 "x0" "y0" "z0")).kart_6dof "x0"
        = tlookup regC9.kart_6dof "x0" ∧
      tlookup (reg_or regC9 (copy_move_delete regC9 "x0" "y0" "z0")).f1_3dof "x0"
        = tlookup regC9.f1_3dof "x0" ∧
      tlookup (reg_or regC9 (copy_move_delete regC9 "x0" "y0" "z0")).track "x0"
        = tlookup regC9.track "x0" ∧
      tlookup (reg_or regC9 (copy_move_delete regC9 "x0" "y0" "z0")).scalar "x0"
        = tlookup regC9.scalar "x0" ∧
      tlookup (reg_or regC9 (copy_move_delete regC9 "x0" "y0" "z0")).vector "x0"
        = tlookup regC9.vector "x0") :=
  ⟨by decide, by decide, by decide, by decide,
   copy_move_delete_clears regC9 "x0" "y0" "z0" (by decide) (by decide) (by decide)
     (by decide)⟩

/-! ### Claim C4 -/

/-- Claim C4 counterexample: on the registry `regC4` (which has vehicles
`my_kart` and `my_f1` but no entry named `ghost`), `optimal_laptime`,
`gg_diagram` and `vehicle_set_parameter` invoked with the absent vehicle
name `ghost` all fall through their `if`/`else if` chains and return
normally with every table unchanged — no lookup-miss error is raised,
contrary to the claim. -/
theorem lookup_miss_silent_return_counterexample :
    optimal_laptime_api id id regC4 "ghost" = (Dispatch.silent_return, regC4) ∧
    gg_diagram_api id id regC4 "ghost" = (Dispatch.silent_return, regC4) ∧
    vehicle_set_parameter_api id regC4 "ghost" = (Dispatch.silent_return, regC4) ∧
    Dispatch.silent_return ≠ Dispatch.ran_kart ∧
    Dispatch.silent_return ≠ Dispatch.ran_f1 := by
  refine ⟨?_, ?_, ?_, by decide, by decide⟩ <;>
    simp [optimal_laptime_api, gg_diagram_api, vehicle_set_parameter_api, regC4,
      tcontains, tlookup]

/-- Claim C4, amended: for any vehicle name absent from both vehicle
registries, `optimal_laptime` and `gg_diagram` silently return with the
registry unchanged, and `vehicle_set_parameter` silently returns whenever
the name is absent from the f1-3dof registry (it never consults the
kart-6dof registry at all); no lookup-miss error is raised by any of the
three. -/
theorem lookup_miss_silent_return {α β γ δ ε : Type}
    (on_kart on_f1 on_gg_kart on_gg_f1 on_set : Registry α β γ δ ε → Registry α β γ δ ε)
    (r : Registry α β γ δ ε) (name : String)
    (hk : tcontains r.kart_6dof name = false)
    (hf : tcontains r.f1_3dof name = false) :
    optimal_laptime_api on_kart on_f1 r name = (Dispatch.silent_return, r) ∧
    gg_diagram_api on_gg_kart on_gg_f1 r name = (Dispatch.silent_return, r) ∧
    vehicle_set_parameter_api on_set r name = (Dispatch.silent_return, r) := by
  refine ⟨?_, ?_, ?_⟩ <;>
    simp [optimal_laptime_api, gg_diagram_api, vehicle_set_parameter_api, hk, hf]

/-- Witness for `lookup_miss_silent_return` on `regC4` with the absent
name `nobody`. -/
theorem lookup_miss_silent_return_witness :
    tcontains regC4.kart_6dof "nobody" = false ∧
    tcontains regC4.f1_3dof "nobody" = false ∧
    (optimal_laptime_api id id regC4 "nobody" = (Dispatch.silent_return, regC4) ∧
      gg_diagram_api id id regC4 "nobody" = (Dispatch.silent_return, regC4) ∧
      vehicle_set_parameter_api id regC4 "nobody" = (Dispatch.silent_return, regC4)) :=
  ⟨by decide, by decide,
   lookup_miss_silent_return id id id id id regC4 "nobody" (by decide) (by decide)⟩

/-! ### Claim C10 -/

/-- Claim C10: the output-saving step of `compute_optimal_laptime` checks
only the scalar and the vector tables before inserting a prefixed output
name, so on the registry `regC10`, which already holds a kart-6dof vehicle
named `run/laptime`, saving the `laptime` output under prefix `run/`
succeeds and leaves `run/laptime` registered in two tables — a state the
code itself treats as erroneous (`delete_variable` then fails with its
multiply-defined error).  The `circuit_preprocessor` track insertion
checks only the track table and breaks the invariant the same way. -/
theorem save_output_breaks_uniqueness_invariant :
    save_scalar_output regC10 "run/laptime" 81 = Except.ok regC10_after ∧
    occurrences regC10_after "run/laptime" = 2 ∧
    delete_variable regC10_after "run/laptime" =
      Except.error "delete_variable variable has been multiply defined" ∧
    circuit_preprocessor_insert_track
        (Registry.mk [] [] [] [("s1", (1 : ℚ))] [] : Registry ℚ ℚ ℚ ℚ ℚ) "s1" 2 =
      Except.ok (Registry.mk [] [] [("s1", 2)] [("s1", 1)] []) ∧
    occurrences (Registry.mk [] [] [("s1", (2 : ℚ))] [("s1", (1 : ℚ))] []
        : Registry ℚ ℚ ℚ ℚ ℚ) "s1" = 2 := by
  refine ⟨?_, by decide, ?_, ?_, by decide⟩ <;>
    simp [save_scalar_output, circuit_preprocessor_insert_track, delete_variable,
      occurrences, regC10, regC10_after, tcontains, tlookup, tinsert, terase]

/-! ### Indexing lemmas for the assembled lists -/

theorem rangeMap_length (n : ℕ) (f : ℕ → ℚ) : (rangeMap n f).length = n := by
  simp [rangeMap]

theorem rangeMap_getElem? {k n : ℕ} (f : ℕ → ℚ) (h : k < n) :
    (rangeMap n f)[k]? = some (f k) := by
  simp [rangeMap, List.getElem?_map, List.getElem?_range h]

theorem concat_blocks_length (f : ℕ → List ℚ) (B : ℕ) (hf : ∀ k, (f k).length = B) :
    ∀ (len start : ℕ), (concat_blocks f start len).length = len * B := by
  intro len
  induction len with
  | zero => intro start; simp [concat_blocks]
  | succ n ih =>
    intro start
    simp only [concat_blocks, List.length_append, hf start, ih (start + 1)]
    ring

theorem concat_blocks_getElem? (f : ℕ → List ℚ) (B : ℕ) (hf : ∀ k, (f k).length = B)
    {r : ℕ} (hr : r < B) :
    ∀ (len start i : ℕ), i < len →
      (concat_blocks f start len)[i * B + r]? = (f (start + i))[r]? := by
  intro len
  induction len with
  | zero => intro start i hi; omega
  | succ n ih =>
    intro start i hi
    cases i with
    | zero =>
      simp only [concat_blocks, Nat.zero_mul, Nat.zero_add, Nat.add_zero]
      rw [List.getElem?_append_left (by rw [hf start]; exact hr)]
    | succ i =>
      simp only [concat_blocks]
      have hge : (f start).length ≤ (i + 1) * B + r := by
        rw [hf start, Nat.add_mul, Nat.one_mul]
        omega
      rw [List.getElem?_append_right hge, hf start]
      have hidx : (i + 1) * B + r - B = i * B + r := by
        rw [Nat.add_mul, Nat.one_mul]
        omega
      rw [hidx, ih (start + 1) i (by omega)]
      have harg : start + 1 + i = start + (i + 1) := by omega
      rw [harg]

theorem concat_blocks_append_getElem? (f : ℕ → List ℚ) (tail : List ℚ) (B : ℕ)
    (hf : ∀ k, (f k).length = B) {r : ℕ} (hr : r < B) (len start i : ℕ) (hi : i < len) :
    (concat_blocks f start len ++ tail)[i * B + r]? = (f (start + i))[r]? := by
  have hlen := concat_blocks_length f B hf len start
  have hb : i * B + r < len * B := by
    have h1 : (i + 1) * B ≤ len * B := mul_le_mul_right' (by omega) B
    rw [Nat.add_mul, Nat.one_mul] at h1
    omega
  rw [List.getElem?_append_left (by rw [hlen]; exact hb)]
  exact concat_blocks_getElem? f B hf hr len start i hi

theorem element_constraints_direct_getElem? (P : OLP) (i j : ℕ)
    (hj : j < P.NSTATE) (hjt : j ≠ P.ITIME) :
    (element_constraints_direct P i)[state_slot P j]? = some (state_defect P i j) := by
  unfold element_constraints_direct state_defect_block state_slot
  simp only [List.append_assoc]
  by_cases hlt : j < P.ITIME
  · rw [if_pos hlt]
    rw [List.getElem?_append_left (by rw [rangeMap_length]; exact hlt)]
    exact rangeMap_getElem? _ hlt
  · rw [if_neg hlt]
    rw [List.getElem?_append_right (by rw [rangeMap_length]; omega), rangeMap_length]
    rw [List.getElem?_append_left (by rw [rangeMap_length]; omega)]
    rw [rangeMap_getElem? _ (by omega)]
    have harg : P.ITIME + 1 + (j - 1 - P.ITIME) = j := by omega
    rw [harg]

theorem element_constraints_derivative_getElem? (P : OLP) (i j : ℕ)
    (hj : j < P.NSTATE) (hjt : j ≠ P.ITIME) :
    (element_constraints_derivative P i)[state_slot P j]? = some (state_defect P i j) := by
  unfold element_constraints_derivative
  have hlen : (element_constraints_direct P i).length
      = P.ITIME + (P.NSTATE - (P.ITIME + 1)) + P.NALGEBRAIC + P.NEXTRA := by
    simp [element_constraints_direct, state_defect_block, rangeMap_length]
    omega
  rw [List.getElem?_append_left (by rw [hlen]; unfold state_slot; split <;> omega)]
  exact element_constraints_direct_getElem? P i j hj hjt

theorem node_c_bounds_direct_getElem? (P : OLP) (b_extra : ℕ → ℚ) (j : ℕ)
    (hj : j < P.NSTATE) (hjt : j ≠ P.ITIME) :
    (node_c_bounds_direct P b_extra)[state_slot P j]? = some 0 := by
  unfold node_c_bounds_direct state_slot
  simp only [List.append_assoc]
  by_cases hlt : j < P.ITIME
  · rw [if_pos hlt]
    rw [List.getElem?_append_left (by rw [rangeMap_length]; exact hlt)]
    exact rangeMap_getElem? _ hlt
  · rw [if_neg hlt]
    rw [List.getElem?_append_right (by rw [rangeMap_length]; omega), rangeMap_length]
    by_cases heq : j = P.ITIME + 1
    · have h0 : j - 1 - P.ITIME = 0 := by omega
      rw [h0]
      simp
    · rw [List.getElem?_append_right (by simp; omega)]
      simp only [List.length_singleton]
      rw [List.getElem?_append_left (by rw [rangeMap_length]; omega)]
      exact rangeMap_getElem? _ (by omega)

theorem node_c_bounds_derivative_getElem? (P : OLP) (b_extra : ℕ → ℚ) (j : ℕ)
    (hj : j < P.NSTATE) (hjt : j ≠ P.ITIME) :
    (node_c_bounds_derivative P b_extra)[state_slot P j]? = some 0 := by
  unfold node_c_bounds_derivative
  have hlen : (node_c_bounds_direct P b_extra).length
      = P.ITIME + 1 + (P.NSTATE - (P.ITIME + 2)) + P.NALGEBRAIC + P.NEXTRA := by
    simp [node_c_bounds_direct, rangeMap_length]
    omega
  rw [List.getElem?_append_left (by rw [hlen]; unfold state_slot; split <;> omega)]
  exact node_c_bounds_direct_getElem? P b_extra j hj hjt

theorem node_x_bounds_direct_getElem? (P : OLP) (nb : ℚ) (qb qab cb : ℕ → ℚ) (j : ℕ)
    (hj : j < P.NSTATE) (hjt : j ≠ P.ITIME) :
    (node_x_bounds_direct P nb qb qab cb)[state_slot P j]?
      = some (if j = P.ITIME + 1 then nb else qb j) := by
  unfold node_x_bounds_direct state_slot
  simp only [List.append_assoc]
  by_cases hlt : j < P.ITIME
  · rw [if_pos hlt, if_neg (by omega)]
    rw [List.getElem?_append_left (by rw [rangeMap_length]; exact hlt)]
    exact rangeMap_getElem? _ hlt
  · rw [if_neg hlt]
    rw [List.getElem?_append_right (by rw [rangeMap_length]; omega), rangeMap_length]
    by_cases heq : j = P.ITIME + 1
    · rw [if_pos heq]
      have h0 : j - 1 - P.ITIME = 0 := by omega
      rw [h0]
      simp
    · rw [if_neg heq]
      rw [List.getElem?_append_right (by simp; omega)]
      simp only [List.length_singleton]
      rw [List.getElem?_append_left (by rw [rangeMap_length]; omega)]
      rw [rangeMap_getElem? _ (by omega)]
      have harg : P.ITIME + 2 + (j - 1 - P.ITIME - 1) = j := by omega
      rw [harg]

theorem node_x_bounds_derivative_getElem? (P : OLP) (nb : ℚ) (qb qab cb db : ℕ → ℚ)
    (j : ℕ) (hj : j < P.NSTATE) (hjt : j ≠ P.ITIME) :
    (node_x_bounds_derivative P nb qb qab cb db)[state_slot P j]?
      = some (if j = P.ITIME + 1 then nb else qb j) := by
  unfold node_x_bounds_derivative
  have hlen : (node_x_bounds_direct P nb qb qab cb).length
      = P.ITIME + 1 + (P.NSTATE - (P.ITIME + 2)) + P.NALGEBRAIC + P.NCONTROL := by
    simp [node_x_bounds_direct, rangeMap_length]
    omega
  rw [List.getElem?_append_left (by rw [hlen]; unfold state_slot; split <;> omega)]
  exact node_x_bounds_direct_getElem? P nb qb qab cb j hj hjt

/-! ### Claim C6 -/

/-- Claim C6: in the assembled NLP, for every interior element
`i = 1..n_points-1` and every non-time state index `j`, the constraint
function contains at slot `(i-1)*B + state_slot j` the trapezoidal defect
`q_i[j] - q_{i-1}[j] - ½(s_i - s_{i-1})(dqds_{i-1}[j] + dqds_i[j])`, and the
constraint-bound vectors give that same slot `lb = ub = 0` — in both
transcription modes and for both closed and open tracks. -/
theorem trapezoidal_defects_and_zero_bounds (P : OLP) (is_closed : Bool) (i j : ℕ)
    (hi1 : 1 ≤ i) (hi2 : i < P.n_points) (hj : j < P.NSTATE) (hjt : j ≠ P.ITIME)
    (hIT : P.ITIME + 1 < P.NSTATE) :
    (fg_constraints_direct P is_closed)[(i - 1) * block_size_direct P + state_slot P j]?
      = some (state_defect P i j) ∧
    (c_lb_direct P is_closed)[(i - 1) * block_size_direct P + state_slot P j]? = some 0 ∧
    (c_ub_direct P is_closed)[(i - 1) * block_size_direct P + state_slot P j]? = some 0 ∧
    (fg_constraints_derivative P is_closed)[(i - 1) * block_size_derivative P
        + state_slot P j]? = some (state_defect P i j) ∧
    (c_lb_derivative P is_closed)[(i - 1) * block_size_derivative P + state_slot P j]?
      = some 0 ∧
    (c_ub_derivative P is_closed)[(i - 1) * block_size_derivative P + state_slot P j]?
      = some 0 := by
  have hrd : state_slot P j < block_size_direct P := by
    unfold state_slot block_size_direct
    split <;> omega
  have hrd2 : state_slot P j < block_size_derivative P := by
    unfold state_slot block_size_derivative
    split <;> omega
  have hfd : ∀ k, (element_constraints_direct P k).length = block_size_direct P := by
    intro k
    simp [element_constraints_direct, state_defect_block, rangeMap_length,
      block_size_direct]
    omega
  have hfdd : ∀ k, (element_constraints_derivative P k).length
      = block_size_derivative P := by
    intro k
    simp [element_constraints_derivative, element_constraints_direct, state_defect_block,
      rangeMap_length, block_size_derivative]
    omega
  have hcbd : ∀ (b : ℕ → ℚ) (k : ℕ),
      (node_c_bounds_direct P b).length = block_size_direct P := by
    intro b k
    simp [node_c_bounds_direct, rangeMap_length, block_size_direct]
    omega
  have hcbdd : ∀ (b : ℕ → ℚ) (k : ℕ),
      (node_c_bounds_derivative P b).length = block_size_derivative P := by
    intro b k
    simp [node_c_bounds_derivative, node_c_bounds_direct, rangeMap_length,
      block_size_derivative]
    omega
  have hibound : i - 1 < P.n_points - ol_offset is_closed := by
    unfold ol_offset
    split <;> omega
  refine ⟨?_, ?_, ?_, ?_, ?_, ?_⟩
  · unfold fg_constraints_direct
    rw [concat_blocks_append_getElem? _ _ (block_size_direct P) hfd hrd
      (P.n_points - 1) 1 (i - 1) (by omega)]
    have harg : 1 + (i - 1) = i := by omega
    rw [harg]
    exact element_constraints_direct_getElem? P i j hj hjt
  · unfold c_lb_direct
    rw [concat_blocks_getElem? _ (block_size_direct P) (hcbd P.c_extra_lb) hrd
      (P.n_points - ol_offset is_closed) (ol_offset is_closed) (i - 1) hibound]
    exact node_c_bounds_direct_getElem? P P.c_extra_lb j hj hjt
  · unfold c_ub_direct
    rw [concat_blocks_getElem? _ (block_size_direct P) (hcbd P.c_extra_ub) hrd
      (P.n_points - ol_offset is_closed) (ol_offset is_closed) (i - 1) hibound]
    exact node_c_bounds_direct_getElem? P P.c_extra_ub j hj hjt
  · unfold fg_constraints_derivative
    rw [concat_blocks_append_getElem? _ _ (block_size_derivative P) hfdd hrd2
      (P.n_points - 1) 1 (i - 1) (by omega)]
    have harg : 1 + (i - 1) = i := by omega
    rw [harg]
    exact element_constraints_derivative_getElem? P i j hj hjt
  · unfold c_lb_derivative
    rw [concat_blocks_getElem? _ (block_size_derivative P) (hcbdd P.c_extra_lb) hrd2
      (P.n_points - ol_offset is_closed) (ol_offset is_closed) (i - 1) hibound]
    exact node_c_bounds_derivative_getElem? P P.c_extra_lb j hj hjt
  · unfold c_ub_derivative
    rw [concat_blocks_getElem? _ (block_size_derivative P) (hcbdd P.c_extra_ub) hrd2
      (P.n_points - ol_offset is_closed) (ol_offset is_closed) (i - 1) hibound]
    exact node_c_bounds_derivative_getElem? P P.c_extra_ub j hj hjt

/-- Witness for `trapezoidal_defects_and_zero_bounds` on the concrete
instance `olpW`, closed track, element `i = 1`, state `j = 1` (the `IN`
index, a non-time state). -/
theorem trapezoidal_defects_and_zero_bounds_witness :
    ((1 : ℕ) ≤ 1 ∧ 1 < olpW.n_points ∧ 1 < olpW.NSTATE ∧ (1 : ℕ) ≠ olpW.ITIME ∧
      olpW.ITIME + 1 < olpW.NSTATE) ∧
    ((fg_constraints_direct olpW true)[(1 - 1) * block_size_direct olpW
        + state_slot olpW 1]? = some (state_defect olpW 1 1) ∧
      (c_lb_direct olpW true)[(1 - 1) * block_size_direct olpW + state_slot olpW 1]?
        = some 0 ∧
      (c_ub_direct olpW true)[(1 - 1) * block_size_direct olpW + state_slot olpW 1]?
        = some 0 ∧
      (fg_constraints_derivative olpW true)[(1 - 1) * block_size_derivative olpW
        + state_slot olpW 1]? = some (state_defect olpW 1 1) ∧
      (c_lb_derivative olpW true)[(1 - 1) * block_size_derivative olpW
        + state_slot olpW 1]? = some 0 ∧
      (c_ub_derivative olpW true)[(1 - 1) * block_size_derivative olpW
        + state_slot olpW 1]? = some 0) :=
  ⟨⟨le_refl 1, by decide, by decide, by decide, by decide⟩,
   trapezoidal_defects_and_zero_bounds olpW true 1 1 (le_refl 1) (by decide) (by decide)
     (by decide) (by decide)⟩

/-! ### Claim C7 -/

/-- Claim C7: in both transcription modes the decision variable holding the
lateral offset `n` at node `i` (state index `IN = ITIME + 1`) gets the
node-dependent bounds `[-n_L(s_i), +n_R(s_i)]` from the track, while every
other state decision variable gets the model-supplied bounds `q_lb j`,
`q_ub j`, which do not depend on the node. -/
theorem lateral_offset_track_limit_bounds (P : OLP) (is_closed : Bool) (i j : ℕ)
    (hi1 : ol_offset is_closed ≤ i) (hi2 : i < P.n_points)
    (hj : j < P.NSTATE) (hjt : j ≠ P.ITIME) (hIT : P.ITIME + 1 < P.NSTATE) :
    (x_lb_direct P is_closed)[(i - ol_offset is_closed) * var_block_direct P
        + state_slot P j]?
      = some (if j = P.ITIME + 1 then -(P.left_track_limit (P.s i)) else P.q_lb j) ∧
    (x_ub_direct P is_closed)[(i - ol_offset is_closed) * var_block_direct P
        + state_slot P j]?
      = some (if j = P.ITIME + 1 then P.right_track_limit (P.s i) else P.q_ub j) ∧
    (x_lb_derivative P is_closed)[(i - ol_offset is_closed) * var_block_derivative P
        + state_slot P j]?
      = some (if j = P.ITIME + 1 then -(P.left_track_limit (P.s i)) else P.q_lb j) ∧
    (x_ub_derivative P is_closed)[(i - ol_offset is_closed) * var_block_derivative P
        + state_slot P j]?
      = some (if j = P.ITIME + 1 then P.right_track_limit (P.s i) else P.q_ub j) := by
  have hrv : state_slot P j < var_block_direct P := by
    unfold state_slot var_block_direct
    split <;> omega
  have hrv2 : state_slot P j < var_block_derivative P := by
    unfold state_slot var_block_derivative
    split <;> omega
  have hibound : i - ol_offset is_closed < P.n_points - ol_offset is_closed := by omega
  have harg : ol_offset is_closed + (i - ol_offset is_closed) = i := by omega
  have hxlen : ∀ (nb : ℚ) (qb qab cb : ℕ → ℚ),
      (node_x_bounds_direct P nb qb qab cb).length = var_block_direct P := by
    intro nb qb qab cb
    simp [node_x_bounds_direct, rangeMap_length, var_block_direct]
    omega
  have hxlen2 : ∀ (nb : ℚ) (qb qab cb db : ℕ → ℚ),
      (node_x_bounds_derivative P nb qb qab cb db).length = var_block_derivative P := by
    intro nb qb qab cb db
    simp [node_x_bounds_derivative, node_x_bounds_direct, rangeMap_length,
      var_block_derivative]
    omega
  refine ⟨?_, ?_, ?_, ?_⟩
  · unfold x_lb_direct
    rw [concat_blocks_getElem? _ (var_block_direct P) (fun k => hxlen _ _ _ _) hrv
      (P.n_points - ol_offset is_closed) (ol_offset is_closed)
      (i - ol_offset is_closed) hibound, harg]
    exact node_x_bounds_direct_getElem? P _ P.q_lb P.qa_lb P.u_lb j hj hjt
  · unfold x_ub_direct
    rw [concat_blocks_getElem? _ (var_block_direct P) (fun k => hxlen _ _ _ _) hrv
      (P.n_points - ol_offset is_closed) (ol_offset is_closed)
      (i - ol_offset is_closed) hibound, harg]
    exact node_x_bounds_direct_getElem? P _ P.q_ub P.qa_ub P.u_ub j hj hjt
  · unfold x_lb_derivative
    rw [concat_blocks_getElem? _ (var_block_derivative P) (fun k => hxlen2 _ _ _ _ _) hrv2
      (P.n_points - ol_offset is_closed) (ol_offset is_closed)
      (i - ol_offset is_closed) hibound, harg]
    exact node_x_bounds_derivative_getElem? P _ P.q_lb P.qa_lb P.u_lb P.dudt_lb j hj hjt
  · unfold x_ub_derivative
    rw [concat_blocks_getElem? _ (var_block_derivative P) (fun k => hxlen2 _ _ _ _ _) hrv2
      (P.n_points - ol_offset is_closed) (ol_offset is_closed)
      (i - ol_offset is_closed) hibound, harg]
    exact node_x_bounds_derivative_getElem? P _ P.q_ub P.qa_ub P.u_ub P.dudt_ub j hj hjt

/-- Witness for `lateral_offset_track_limit_bounds` on `olpW`, closed
track, node `i = 1`, state `j = 1 = IN`: the bounds are the track limits at
`s 1`. -/
theorem lateral_offset_track_limit_bounds_witness :
    (ol_offset true ≤ 1 ∧ 1 < olpW.n_points ∧ 1 < olpW.NSTATE ∧
      (1 : ℕ) ≠ olpW.ITIME ∧ olpW.ITIME + 1 < olpW.NSTATE) ∧
    ((x_lb_direct olpW true)[(1 - ol_offset true) * var_block_direct olpW
        + state_slot olpW 1]?
      = some (if 1 = olpW.ITIME + 1 then -(olpW.left_track_limit (olpW.s 1))
          else olpW.q_lb 1) ∧
      (x_ub_direct olpW true)[(1 - ol_offset true) * var_block_direct olpW
        + state_slot olpW 1]?
      = some (if 1 = olpW.ITIME + 1 then olpW.right_track_limit (olpW.s 1)
          else olpW.q_ub 1) ∧
      (x_lb_derivative olpW true)[(1 - ol_offset true) * var_block_derivative olpW
        + state_slot olpW 1]?
      = some (if 1 = olpW.ITIME + 1 then -(olpW.left_track_limit (olpW.s 1))
          else olpW.q_lb 1) ∧
      (x_ub_derivative olpW true)[(1 - ol_offset true) * var_block_derivative olpW
        + state_slot olpW 1]?
      = some (if 1 = olpW.ITIME + 1 then olpW.right_track_limit (olpW.s 1)
          else olpW.q_ub 1)) :=
  ⟨⟨by decide, by decide, by decide, by decide, by decide⟩,
   lateral_offset_track_limit_bounds olpW true 1 1 (by decide) (by decide) (by decide)
     (by decide) (by decide)⟩
